import Mathlib

/-!
Shallow embedding of the emailai triage UI (React front end) for checking its
natural-language specification.  Each definition below is translated from a
named function in the repository source; theorems settle the spec claims.

JavaScript numbers are modelled as `JSNum` (a rational together with the
special values `NaN`, `Infinity`, `-Infinity`); JavaScript's dynamically typed
values, where a function branches on `typeof`, are modelled by the inductive
`JSVal`.  Ambient effects (the current time `new Date()`, `Date.now()`,
`Math.random()`) are passed as explicit parameters.
-/

/-- A JavaScript number: finite (modelled as a rational) or one of the
special values `NaN`, `Infinity`, `-Infinity`. -/
inductive JSNum where
  | nan
  | posInf
  | negInf
  | fin (q : ℚ)
deriving DecidableEq

/-- A JavaScript runtime value, as far as `typeof`-style branching needs:
either a number or a non-number value (string, boolean, null, undefined,
object).  Functions under study only distinguish `typeof n === "number"`. -/
inductive JSVal where
  | num (x : JSNum)
  | str (s : String)
  | boolean (b : Bool)
  | nullV
  | undefinedV
deriving DecidableEq

/-- `Math.round` in JavaScript: round half toward positive infinity;
`NaN` and the infinities are returned unchanged. -/
def jsRound : JSNum → JSNum
  | .nan => .nan
  | .posInf => .posInf
  | .negInf => .negInf
  | .fin q => .fin (((q + 1/2).floor : ℤ) : ℚ)

/-- `Math.min(a, x)` for a finite literal `a`: `NaN` propagates. -/
def jsMin (a : ℚ) : JSNum → JSNum
  | .nan => .nan
  | .posInf => .fin a
  | .negInf => .negInf
  | .fin q => .fin (if a ≤ q then a else q)

/-- `Math.max(a, x)` for a finite literal `a`: `NaN` propagates. -/
def jsMax (a : ℚ) : JSNum → JSNum
  | .nan => .nan
  | .posInf => .posInf
  | .negInf => .fin a
  | .fin q => .fin (if q ≤ a then a else q)

/-- Template-literal display `${v}` of a JavaScript number as it occurs in
`fmt`: after clamping, the value is `NaN` or an integer, printed in decimal.
(The non-integer fallback prints `num/den`; it is unreachable from `fmt`.) -/
def jsNumDisplay : JSNum → String
  | .nan => "NaN"
  | .posInf => "Infinity"
  | .negInf => "-Infinity"
  | .fin q => if q.den = 1 then toString q.num else toString q.num ++ "/" ++ toString q.den

/-- `fmt` from `src/unnamed/part_002` lines 96-100 (identical copies in
`src/unnamed/part_001` lines 340-344 and `src/unnamed/part_003`):

```js
function fmt(n){
  if (typeof n !== "number") return "—";
  const v = Math.max(0, Math.min(100, Math.round(n)));
  return `${v}%`;
}
```

Note `typeof NaN === "number"` holds in JavaScript, so `NaN` reaches the
clamping line, and `Math.round`/`Math.min`/`Math.max` all propagate `NaN`. -/
def fmt : JSVal → String
  | .num x => jsNumDisplay (jsMax 0 (jsMin 100 (jsRound x))) ++ "%"
  | _ => "—"

/-- Normal form of `fmt` on a finite number: clamp the rounded value into
`[0, 100]` as an integer and print it in decimal. -/
lemma fmt_fin_eq (q : ℚ) :
    fmt (.num (.fin q)) = toString (max 0 (min 100 ((q + 1/2).floor))) ++ "%" := by
  show jsNumDisplay (jsMax 0 (jsMin 100 (jsRound (.fin q)))) ++ "%" = _
  have h1 : jsRound (.fin q) = .fin (((q + 1/2).floor : ℤ) : ℚ) := rfl
  rw [h1]
  set z : ℤ := (q + 1/2).floor with hz
  by_cases h100 : (100 : ℤ) ≤ z
  · have hq : (100 : ℚ) ≤ (z : ℚ) := by exact_mod_cast h100
    rw [jsMin, if_pos hq]
    have : jsMax 0 (JSNum.fin 100) = .fin 100 := by
      rw [jsMax, if_neg (by norm_num)]
    rw [this]
    rw [min_eq_left h100, max_eq_right (by omega : (0:ℤ) ≤ 100)]
    rfl
  · have hq : ¬ (100 : ℚ) ≤ (z : ℚ) := by exact_mod_cast h100
    rw [jsMin, if_neg hq, min_eq_right (by omega : z ≤ 100)]
    by_cases h0 : z ≤ 0
    · have hq0 : ((z:ℚ)) ≤ 0 := by exact_mod_cast h0
      rw [jsMax, if_pos hq0, max_eq_left h0]
      rfl
    · have hq0 : ¬ ((z:ℚ)) ≤ 0 := by exact_mod_cast h0
      rw [jsMax, if_neg hq0, max_eq_right (by omega : (0:ℤ) ≤ z)]
      rw [jsNumDisplay]
      rw [Rat.den_intCast, if_pos rfl, Rat.num_intCast]

/-- C2 (amended): `fmt` maps any number above 100 (including `Infinity`) to
`"100%"`, any number below 0 (including `-Infinity`) to `"0%"`, and any
non-number to the placeholder `"—"`; every finite number renders as `z%` for
some integer `0 ≤ z ≤ 100`; `fmt` is a total function (it never throws).
However `NaN` — which has JavaScript type `number` and therefore passes the
`typeof` guard — renders as `"NaN%"`. -/
theorem fmt_clamps (v : JSVal) :
    (∀ q : ℚ, v = .num (.fin q) → 100 < q → fmt v = "100%") ∧
    (v = .num .posInf → fmt v = "100%") ∧
    (∀ q : ℚ, v = .num (.fin q) → q < 0 → fmt v = "0%") ∧
    (v = .num .negInf → fmt v = "0%") ∧
    ((∀ x, v ≠ .num x) → fmt v = "—") ∧
    (∀ q : ℚ, v = .num (.fin q) →
      ∃ z : ℤ, 0 ≤ z ∧ z ≤ 100 ∧ fmt v = toString z ++ "%") ∧
    (v = .num .nan → fmt v = "NaN%") := by
  refine ⟨?_, ?_, ?_, ?_, ?_, ?_, ?_⟩
  · rintro q rfl h
    rw [fmt_fin_eq]
    have hf : (100 : ℤ) ≤ (q + 1/2).floor := by
      rw [Rat.le_floor]
      push_cast
      linarith
    rw [min_eq_left hf, max_eq_right (by omega : (0:ℤ) ≤ 100)]
    rfl
  · rintro rfl; rfl
  · rintro q rfl h
    rw [fmt_fin_eq]
    have hf : (q + 1/2).floor ≤ 0 := by
      by_contra hc
      have h1 : (1 : ℤ) ≤ (q + 1/2).floor := by omega
      rw [Rat.le_floor] at h1
      push_cast at h1
      linarith
    rw [min_eq_right (by omega : (q + 1/2).floor ≤ 100), max_eq_left hf]
    rfl
  · rintro rfl; rfl
  · intro h
    cases v with
    | num x => exact absurd rfl (h x)
    | str s => rfl
    | boolean b => rfl
    | nullV => rfl
    | undefinedV => rfl
  · rintro q rfl
    refine ⟨max 0 (min 100 ((q + 1/2).floor)), le_max_left _ _, ?_, fmt_fin_eq q⟩
    exact max_le (by omega) (min_le_left _ _)
  · rintro rfl; rfl

/-- Witness for C2: `fmt` at the concrete over-range input `150` yields
`"100%"`. -/
theorem fmt_clamps_witness :
    (100 : ℚ) < 150 ∧ fmt (.num (.fin 150)) = "100%" :=
  ⟨by decide, (fmt_clamps (.num (.fin 150))).1 150 rfl (by decide)⟩

/-- C2 counterexample: `NaN` has JavaScript type `number`, so it passes the
`typeof n !== "number"` guard in `fmt`; `Math.round`, `Math.min` and
`Math.max` all propagate `NaN`, and the template literal renders it as
`"NaN%"` — the claim asserts this string is never produced. -/
theorem fmt_nan_cex : fmt (.num .nan) = "NaN%" := by decide

/-- Characters of a JavaScript regex capture `[^c]+`: the maximal run of
characters before the first occurrence of `stop` (or the end of input). -/
def takeUntilChar (stop : Char) : List Char → List Char
  | [] => []
  | c :: cs => if c = stop then [] else c :: takeUntilChar stop cs

/-- Leftmost match of the JavaScript regex `key([^stop]+)`, returning the
capture group: scan for the first position where the literal `key` occurs
followed by at least one character other than `stop`; the capture is then the
maximal run of non-`stop` characters.  (When the characters right after an
occurrence of `key` are empty or start with `stop`, the regex engine
backtracks and resumes the scan at the next start position, which the
recursive call models.) -/
def matchCapture (key : List Char) (stop : Char) : List Char → Option (List Char)
  | [] => none
  | c :: cs =>
    if key.isPrefixOf (c :: cs) then
      let cap := takeUntilChar stop ((c :: cs).drop key.length)
      if cap.isEmpty then matchCapture key stop cs else some cap
    else matchCapture key stop cs

/-- The backend `email.from?.emailAddress` field as the front end receives
it: absent (or otherwise falsy), a string, or an object with optional
`.name`/`.address` properties. -/
inductive EmailAddressField where
  | absent
  | strVal (s : String)
  | objVal (name address : Option String)
deriving DecidableEq

/-- JavaScript `o || d` for an optional string `o`: missing values and the
empty string are falsy and fall through to the default `d`. -/
def jsTruthyOr (o : Option String) (d : String) : String :=
  match o with
  | some s => if s = "" then d else s
  | none => d

/-- Sender normalization shared by `transformEmailData`
(`src/frontend/src/pages/SortBoard.jsx` lines 93-108) and `refreshEmails` /
`loadEmails` (`src/unnamed/part_005` lines 43-58):

```js
let fromName = 'Unknown';
let fromEmail = 'unknown@example.com';
if (email.from?.emailAddress) {
  if (typeof email.from.emailAddress === 'string') {
    const nameMatch = email.from.emailAddress.match(/name=([^;]+)/);
    const emailMatch = email.from.emailAddress.match(/address=([^}]+)/);
    fromName = nameMatch ? nameMatch[1] : 'Unknown';
    fromEmail = emailMatch ? emailMatch[1] : 'unknown@example.com';
  } else {
    fromName = email.from.emailAddress.name || 'Unknown';
    fromEmail = email.from.emailAddress.address || 'unknown@example.com';
  }
}
```

The guard `if (email.from?.emailAddress)` makes an empty-string field fall
through to the defaults (empty strings are falsy).  The function is total:
it never throws. -/
def normalizeSender : EmailAddressField → String × String
  | .absent => ("Unknown", "unknown@example.com")
  | .strVal s =>
      if s = "" then ("Unknown", "unknown@example.com")
      else
        (match matchCapture "name=".data ';' s.data with
          | some cap => String.mk cap
          | none => "Unknown",
         match matchCapture "address=".data '\x7d' s.data with
          | some cap => String.mk cap
          | none => "unknown@example.com")
  | .objVal n a => (jsTruthyOr n "Unknown", jsTruthyOr a "unknown@example.com")

/-- C3: sender normalization returns the captured `name=`/`address=` values
for serialized-string senders — on the exact input
`"@{name=Nina Davis; address=nina.davis@example.com}"` it returns
`("Nina Davis", "nina.davis@example.com")` — reads `.name`/`.address` for
object senders, and falls back to `"Unknown"`/`"unknown@example.com"` for a
missing field, a non-matching string, or an object with missing fields; the
normalization is a total function (it never throws). -/
theorem normalizeSender_spec :
    (normalizeSender (.strVal "@\x7bname=Nina Davis; address=nina.davis@example.com\x7d")
        = ("Nina Davis", "nina.davis@example.com")) ∧
    (∀ n a : String, n ≠ "" → a ≠ "" →
        normalizeSender (.objVal (some n) (some a)) = (n, a)) ∧
    (normalizeSender .absent = ("Unknown", "unknown@example.com")) ∧
    (normalizeSender (.objVal none none) = ("Unknown", "unknown@example.com")) ∧
    (∀ s : String,
        matchCapture "name=".data ';' s.data = none →
        matchCapture "address=".data '\x7d' s.data = none →
        normalizeSender (.strVal s) = ("Unknown", "unknown@example.com")) := by
  refine ⟨by decide, ?_, rfl, rfl, ?_⟩
  · intro n a hn ha
    simp [normalizeSender, jsTruthyOr, hn, ha]
  · intro s hn ha
    by_cases hs : s = ""
    · simp [normalizeSender, hs]
    · simp [normalizeSender, hs, hn, ha]

/-- Witness for C3: the object path at a concrete sender and the
default path at a concrete non-matching string. -/
theorem normalizeSender_spec_witness :
    ("Alice" ≠ "" ∧
      normalizeSender (.objVal (some "Alice") (some "alice@example.org"))
        = ("Alice", "alice@example.org")) ∧
    (matchCapture "name=".data ';' "hello".data = none ∧
      normalizeSender (.strVal "hello") = ("Unknown", "unknown@example.com")) :=
  ⟨⟨by decide, normalizeSender_spec.2.1 "Alice" "alice@example.org" (by decide) (by decide)⟩,
   ⟨by decide, normalizeSender_spec.2.2.2.2 "hello" (by decide) (by decide)⟩⟩

/-- The backend `email.body` field: absent, a plain string, or an object
wrapper with an optional `.content` property. -/
inductive BodyField where
  | missing
  | strB (s : String)
  | objB (content : Option String)
deriving DecidableEq

/-- Result of the JavaScript chain `email.body?.content || email.body || ''`:
either a string, or (when the wrapper object is truthy but its `.content` is
falsy) the wrapper object itself falls through the `||`. -/
inductive BodyOut where
  | strOut (s : String)
  | objOut (content : Option String)
deriving DecidableEq

/-- `email.body?.content || email.body || ''` — empty strings are falsy, an
object is always truthy, so an object with falsy `.content` is itself the
result of the chain. -/
def resolveBody : BodyField → BodyOut
  | .missing => .strOut ""
  | .strB s => if s = "" then .strOut "" else .strOut s
  | .objB content =>
      match content with
      | some c => if c = "" then .objOut (some "") else .strOut c
      | none => .objOut none

/-- The backend `email.labels` object (only `.category` is consumed). -/
structure Labels where
  category : Option String
deriving DecidableEq

/-- A raw backend email record as consumed by `transformEmailData` in
`src/frontend/src/pages/SortBoard.jsx`: every field may be missing. -/
structure BackendEmail where
  id : Option String
  subject : Option String
  emailAddress : EmailAddressField
  body : BodyField
  receivedDateTime : Option String
  tags : Option (List String)
  assigned_agent : Option String
  hasAttachments : Option Bool
  labels : Option Labels
  ticket : Option String
deriving DecidableEq

/-- JavaScript `o || null` for an optional string: the empty string is falsy
and becomes `null`. -/
def jsOrNull (o : Option String) : Option String :=
  match o with
  | some s => if s = "" then none else some s
  | none => none

/-- The SortBoard-format email produced by `transformEmailData`. -/
structure SBEmail where
  id : String
  subject : String
  fromName : String
  fromEmail : String
  body : BodyOut
  «at» : String
  tags : List String
  assignedTo : Option String
  hasAttachments : Bool
  labels : Option Labels
  ticket : Option String
deriving DecidableEq

/-- `transformEmailData` from `src/frontend/src/pages/SortBoard.jsx` lines
91-125.  The call `new Date().toISOString()` used as the fallback for a
missing `receivedDateTime` is passed explicitly as the `now` parameter. -/
def transformEmailData (now : String) (email : BackendEmail) (idx : ℕ)
    (isNewEmail : Bool) : SBEmail :=
  { id := jsTruthyOr email.id ("E-" ++ toString (idx + 1)),
    subject := jsTruthyOr email.subject "No Subject",
    fromName := (normalizeSender email.emailAddress).1,
    fromEmail := (normalizeSender email.emailAddress).2,
    body := resolveBody email.body,
    «at» := jsTruthyOr email.receivedDateTime now,
    tags := email.tags.getD [],
    assignedTo := if isNewEmail then none else jsOrNull email.assigned_agent,
    hasAttachments := email.hasAttachments.getD false,
    labels := email.labels,
    ticket := jsOrNull email.ticket }

/-- A backend record with `receivedDateTime` missing, used to exhibit the
time dependence of `transformEmailData`. -/
def cexEmailNoDate : BackendEmail :=
  { id := some "B-1", subject := some "S", emailAddress := .absent, body := .strB "b",
    receivedDateTime := none, tags := none, assigned_agent := none,
    hasAttachments := none, labels := none, ticket := none }

/-- C10 counterexample: on a record missing `receivedDateTime`, the line
`received_at: email.receivedDateTime || new Date().toISOString()` substitutes
the current time, so two applications at different times produce different
outputs — the claim asserts identical outputs for that very case. -/
theorem transformEmailData_time_cex :
    transformEmailData "2024-01-01T00:00:00Z" cexEmailNoDate 0 true
      ≠ transformEmailData "2024-01-02T00:00:00Z" cexEmailNoDate 0 true := by decide

/-- C10 (amended): `transformEmailData` is a pure function of its input
record, index, flag, and the ambient current time; whenever the record's
`receivedDateTime` is present and non-empty the output does not depend on the
current time at all (every other field is a pure function of record and
index).  When `receivedDateTime` is missing, the current timestamp is
substituted into the `at` field, so outputs taken at different times
differ. -/
theorem transformEmailData_pure (now1 now2 : String) (email : BackendEmail)
    (idx : ℕ) (isNewEmail : Bool) (s : String)
    (hs : email.receivedDateTime = some s) (hne : s ≠ "") :
    transformEmailData now1 email idx isNewEmail
      = transformEmailData now2 email idx isNewEmail := by
  simp [transformEmailData, jsTruthyOr, hs, hne]

/-- A backend record with `receivedDateTime` present. -/
def emailWithDate : BackendEmail :=
  { id := some "B-2", subject := some "T", emailAddress := .absent, body := .missing,
    receivedDateTime := some "2024-03-01T10:00:00Z", tags := none,
    assigned_agent := some "agent_002", hasAttachments := some true, labels := none,
    ticket := some "new" }

/-- Witness for C10 (amended): with `receivedDateTime` present, two
applications at different current times agree. -/
theorem transformEmailData_pure_witness :
    emailWithDate.receivedDateTime = some "2024-03-01T10:00:00Z" ∧
    "2024-03-01T10:00:00Z" ≠ "" ∧
    transformEmailData "t1" emailWithDate 3 false
      = transformEmailData "t2" emailWithDate 3 false :=
  ⟨rfl, by decide,
   transformEmailData_pure "t1" "t2" emailWithDate 3 false "2024-03-01T10:00:00Z" rfl
     (by decide)⟩

/-- The `ocr` payload attached to a backend attachment (only `.text` is
consumed downstream). -/
structure OcrField where
  text : Option String
deriving DecidableEq

/-- A raw backend attachment record as passed through the agent board
(`blobPath`, `name`, `filename`, `ocr`, each possibly missing). -/
structure BackendAttachment where
  blobPath : Option String
  name : Option String
  filename : Option String
  ocr : Option OcrField
deriving DecidableEq

/-- A Dashboard-format email of the agent board (`src/unnamed/part_005`,
produced by `refreshEmails`/`loadEmails` there): the `ticket` field defaults
to `"new"` during transformation, and `assignee` is flattened to its id and
name. -/
structure AgentEmail where
  id : String
  subject : String
  fromName : String
  fromEmail : String
  body : BodyOut
  attachments : List BackendAttachment
  received_at : String
  messageId : String
  assigneeId : String
  assigneeName : String
  tags : List String
  ticket : String
  labels : Option Labels
  hasAttachments : Bool
deriving DecidableEq

/-- `newEmails` from `src/unnamed/part_005` lines 158-160 (identical in
`src/frontend/src/pages/Dashboard.jsx` lines 400-402):
`emails.filter(email => email.ticket === 'new')`. -/
def newEmails (emails : List AgentEmail) : List AgentEmail :=
  emails.filter (fun email => email.ticket == "new")

/-- `openEmails` from `src/unnamed/part_005` lines 162-164. -/
def openEmails (emails : List AgentEmail) : List AgentEmail :=
  emails.filter (fun email => email.ticket == "open")

/-- `closedEmails` from `src/unnamed/part_005` lines 166-168. -/
def closedEmails (emails : List AgentEmail) : List AgentEmail :=
  emails.filter (fun email => email.ticket == "closed")

/-- C4: the three buckets are pairwise disjoint; together they contain
exactly the emails whose `ticket` is `new`, `open` or `closed`; each bucket
is a sublist of the input (the filters keep the input's relative order); an
email with any other `ticket` value lands in no bucket while the underlying
`emails` collection itself is left untouched (the buckets are derived lists,
not mutations). -/
theorem buckets_partition (es : List AgentEmail) :
    (∀ e, ¬ (e ∈ newEmails es ∧ e ∈ openEmails es)) ∧
    (∀ e, ¬ (e ∈ newEmails es ∧ e ∈ closedEmails es)) ∧
    (∀ e, ¬ (e ∈ openEmails es ∧ e ∈ closedEmails es)) ∧
    (∀ e, (e ∈ newEmails es ∨ e ∈ openEmails es ∨ e ∈ closedEmails es) ↔
      (e ∈ es ∧ (e.ticket = "new" ∨ e.ticket = "open" ∨ e.ticket = "closed"))) ∧
    ((newEmails es).Sublist es ∧ (openEmails es).Sublist es ∧
      (closedEmails es).Sublist es) ∧
    (∀ e ∈ es, e.ticket ≠ "new" → e.ticket ≠ "open" → e.ticket ≠ "closed" →
      e ∉ newEmails es ∧ e ∉ openEmails es ∧ e ∉ closedEmails es) := by
  refine ⟨?_, ?_, ?_, ?_,
    ⟨List.filter_sublist _, List.filter_sublist _, List.filter_sublist _⟩, ?_⟩
  · rintro e ⟨h1, h2⟩
    simp [newEmails, openEmails, List.mem_filter] at h1 h2
    rw [h1.2] at h2
    exact absurd h2.2 (by decide)
  · rintro e ⟨h1, h2⟩
    simp [newEmails, closedEmails, List.mem_filter] at h1 h2
    rw [h1.2] at h2
    exact absurd h2.2 (by decide)
  · rintro e ⟨h1, h2⟩
    simp [openEmails, closedEmails, List.mem_filter] at h1 h2
    rw [h1.2] at h2
    exact absurd h2.2 (by decide)
  · intro e
    simp [newEmails, openEmails, closedEmails, List.mem_filter]
    tauto
  · intro e he h1 h2 h3
    simp [newEmails, openEmails, closedEmails, List.mem_filter]
    tauto

/-- An agent email with an unrecognized ticket value. -/
def weirdEmail : AgentEmail :=
  { id := "E-9", subject := "s", fromName := "n", fromEmail := "e", body := .strOut "",
    attachments := [], received_at := "t", messageId := "m", assigneeId := "a",
    assigneeName := "A", tags := [], ticket := "archived", labels := none,
    hasAttachments := false }

/-- Witness for C4: a concrete email whose ticket value `"archived"` is none
of the three recognized states appears in no bucket. -/
theorem buckets_partition_witness :
    weirdEmail.ticket ≠ "new" ∧
    (weirdEmail ∉ newEmails [weirdEmail] ∧ weirdEmail ∉ openEmails [weirdEmail] ∧
      weirdEmail ∉ closedEmails [weirdEmail]) :=
  ⟨by decide,
   (buckets_partition [weirdEmail]).2.2.2.2.2 weirdEmail (List.mem_singleton.mpr rfl)
     (by decide) (by decide) (by decide)⟩

/-- Sender of a mock email (`{ name, email }` in the Dashboard seeds). -/
structure Sender where
  name : String
  email : String
deriving DecidableEq

/-- A mock incoming email of the first Dashboard variant
(`src/frontend/src/pages/Dashboard.jsx` lines 8-31): attachments are plain
URL strings. -/
structure MockEmail where
  id : String
  subject : String
  «from» : Sender
  body : String
  attachments : List String
  received_at : String
  messageId : String
deriving DecidableEq

/-- Attachment entry of a synthesized ticket (`{ sasUrl, blob }`). -/
structure TicketAttachment where
  sasUrl : String
  blob : String
deriving DecidableEq

/-- The `extracted` record of a synthesized ticket. -/
structure Extracted where
  merchant : String
  date : String
  total : ℚ
  model : String
  storeNumber : String
deriving DecidableEq

/-- Default score preset of a synthesized ticket. -/
structure Scores where
  confidence : ℚ
  dup_score : ℚ
  fraud_score : ℚ
deriving DecidableEq

/-- The `validation` record of a synthesized ticket. -/
structure Validation where
  status : String
  rules_passed : List String
  rules_failed : List String
deriving DecidableEq

/-- The mutable draft reply of a ticket (`{ template, body }`). -/
structure DraftReply where
  template : String
  body : String
deriving DecidableEq

/-- One entry of a ticket's message thread. -/
structure ThreadEntry where
  id : String
  direction : String
  subject : String
  body : String
  «at» : String
deriving DecidableEq

/-- A ticket as built by `mkTicketFromEmail` in
`src/frontend/src/pages/Dashboard.jsx` lines 47-106. -/
structure Ticket where
  id : String
  ingestionKey : String
  email_id : String
  subject : String
  sender : Sender
  received_at : String
  status : String
  email_body : String
  attachments : List TicketAttachment
  extracted : Extracted
  scores : Scores
  validation : Validation
  draft_reply : DraftReply
  thread : List ThreadEntry
deriving DecidableEq

/-- JavaScript `hay.includes(needle)`: some position of `hay` starts with
`needle`. -/
def strIncludes (needle : String) : List Char → Bool
  | [] => needle.data.isEmpty
  | c :: cs => needle.data.isPrefixOf (c :: cs) || strIncludes needle cs

/-- Leftmost match of an alternation of literal tokens (the regex
`ZX100|QX55`): at each start position the first listed token that matches
wins, mirroring the regex engine's alternation priority. -/
def findFirstToken (toks : List String) : List Char → Option String
  | [] => none
  | c :: cs =>
      match toks.find? (fun t => t.data.isPrefixOf (c :: cs)) with
      | some t => some t
      | none => findFirstToken toks cs

/-- Leftmost match of the regex `BB-\d{4}`: scan for `BB-` followed by at
least four digits and return `BB-` plus the first four digits. -/
def storeNumberMatch : List Char → Option String
  | [] => none
  | c :: cs =>
      if "BB-".data.isPrefixOf (c :: cs) then
        let rest := (c :: cs).drop 3
        if rest.length ≥ 4 && (rest.take 4).all Char.isDigit then
          some ("BB-" ++ String.mk (rest.take 4))
        else storeNumberMatch cs
      else storeNumberMatch cs

/-- JavaScript `s || d` for plain strings: the empty string is falsy. -/
def jsStrOr (s d : String) : String := if s = "" then d else s

/-- The inner helper `tModel` of `mkTicketFromEmail`
(`src/frontend/src/pages/Dashboard.jsx` lines 102-105): the matched model
token of the subject, or `"your product"`. -/
def tModel (e : MockEmail) : String :=
  match findFirstToken ["ZX100", "QX55"] e.subject.data with
  | some m => m
  | none => "your product"

/-- The `extracted` record built by `mkTicketFromEmail`
(`src/frontend/src/pages/Dashboard.jsx` lines 74-80).  The current date used
by `new Date().toISOString().slice(0, 10)` is the explicit `today`
parameter. -/
def extractedOfEmail (today : String) (em : MockEmail) : Extracted :=
  { merchant := if strIncludes "BB" em.body.data then "Best Buy" else "Unknown",
    date := today,
    total := if strIncludes "$1299.99" em.body.data then 129999/100 else 2495/10,
    model := (findFirstToken ["ZX100", "QX55"] em.subject.data).getD "—",
    storeNumber := (storeNumberMatch em.body.data).getD "—" }

/-- The idempotency key computed by `mkTicketFromEmail`
(`src/frontend/src/pages/Dashboard.jsx` lines 48-49):
`` `${em.messageId}|${(em.attachments || []).join("|")}` ``. -/
def ingestionKeyOf (em : MockEmail) : String :=
  em.messageId ++ "|" ++ String.intercalate "|" em.attachments

/-- The default scores of `mkTicketFromEmail`
(`src/frontend/src/pages/Dashboard.jsx` lines 56-59): one preset when the
matched model is `ZX100`, another otherwise. -/
def defaultScoresOf (em : MockEmail) : Scores :=
  if (findFirstToken ["ZX100", "QX55"] em.subject.data).getD "—" = "ZX100" then
    ⟨92, 36, 8⟩
  else ⟨92, 12, 8⟩

/-- The fresh ticket constructed by `mkTicketFromEmail` when no existing
ticket shares the ingestion key (`src/frontend/src/pages/Dashboard.jsx`
lines 61-99).  The random id suffix from `Math.random()` and the current
date are explicit parameters `freshId` and `today`. -/
def mkNewTicket (freshId today : String) (em : MockEmail) : Ticket :=
  { id := "TKT-" ++ freshId,
    ingestionKey := ingestionKeyOf em,
    email_id := em.id,
    subject := em.subject,
    sender := em.«from»,
    received_at := em.received_at,
    status := "awaiting_review",
    email_body := em.body,
    attachments := em.attachments.enum.map
      (fun p => { sasUrl := p.2, blob := "mock/blob/" ++ toString p.1 }),
    extracted := extractedOfEmail today em,
    scores := defaultScoresOf em,
    validation := { status := "pass", rules_passed := ["merchant_known"], rules_failed := [] },
    draft_reply :=
      { template := "approve",
        body := "Hi " ++ jsStrOr em.«from».name "Customer" ++
          ",\n\nWe verified your purchase for " ++ tModel em ++
          ". Your warranty claim is approved.\n\nBest,\nSupport" },
    thread := [{ id := em.messageId, direction := "in", subject := em.subject,
                 body := em.body, «at» := em.received_at }] }

/-- `mkTicketFromEmail` (`src/frontend/src/pages/Dashboard.jsx` lines
47-106): return the existing ticket with the same ingestion key if there is
one, otherwise build a fresh ticket. -/
def mkTicketFromEmail (freshId today : String) (tickets : List Ticket)
    (em : MockEmail) : Ticket :=
  match tickets.find? (fun t => t.ingestionKey == ingestionKeyOf em) with
  | some t => t
  | none => mkNewTicket freshId today em

/-- The state slots of the first Dashboard variant
(`src/frontend/src/pages/Dashboard.jsx` lines 8-35). -/
structure DashState where
  incomingEmails : List MockEmail
  tickets : List Ticket
  selected : Option Ticket
deriving DecidableEq

/-- `handleOpenIncoming` (`src/frontend/src/pages/Dashboard.jsx` lines
109-120): find the clicked email, synthesize (or retrieve) its ticket, add
it only when no ticket with the same ingestion key exists, remove the email
from the incoming list, and select the ticket. -/
def handleOpenIncoming (freshId today : String) (st : DashState)
    (emailId : String) : DashState :=
  match st.incomingEmails.find? (fun e => e.id == emailId) with
  | none => st
  | some em =>
    let t := mkTicketFromEmail freshId today st.tickets em
    { incomingEmails := st.incomingEmails.filter (fun e => e.id != em.id),
      tickets :=
        if (st.tickets.find? (fun x => x.ingestionKey == t.ingestionKey)).isSome
        then st.tickets else t :: st.tickets,
      selected := some t }

/-- The per-ticket update of `handleSave`
(`src/frontend/src/pages/Dashboard.jsx` lines 128-134). -/
def saveTicketUpd (ticketId draftBody : String) (t : Ticket) : Ticket :=
  if t.id == ticketId then
    { t with draft_reply := { t.draft_reply with body := draftBody } }
  else t

/-- `handleSave`: update the draft body of the matching ticket, keep
everything else (status, selection) unchanged. -/
def handleSave (ticketId draftBody : String) (st : DashState) : DashState :=
  { st with tickets := st.tickets.map (saveTicketUpd ticketId draftBody) }

/-- The per-ticket update of `handleSend`
(`src/frontend/src/pages/Dashboard.jsx` lines 137-144). -/
def sendTicketUpd (ticketId draftBody : String) (t : Ticket) : Ticket :=
  if t.id == ticketId then
    { t with status := "sent",
             draft_reply := { t.draft_reply with body := draftBody } }
  else t

/-- `handleSend`: set the matching ticket's status to `"sent"`, store the
draft body, and clear the selected detail view.  No condition on the draft
body is checked. -/
def handleSend (ticketId draftBody : String) (st : DashState) : DashState :=
  { incomingEmails := st.incomingEmails,
    tickets := st.tickets.map (sendTicketUpd ticketId draftBody),
    selected := none }

/-- The inbound thread entry appended by `handleSimulateReply`
(`src/frontend/src/pages/Dashboard.jsx` lines 155-163).  `Date.now()` and
`new Date().toISOString()` are the explicit parameters `nowMs` and
`nowIso`. -/
def simReplyEntry (nowMs nowIso : String) (t : Ticket) : ThreadEntry :=
  { id := "reply-" ++ nowMs, direction := "in", subject := "Re: " ++ t.subject,
    body := "Customer: thanks!", «at» := nowIso }

/-- The per-ticket update of `handleSimulateReply`
(`src/frontend/src/pages/Dashboard.jsx` lines 147-169). -/
def simReplyTicketUpd (nowMs nowIso ticketId : String) (t : Ticket) : Ticket :=
  if t.id == ticketId then
    { t with status := "awaiting_review",
             thread := t.thread ++ [simReplyEntry nowMs nowIso t] }
  else t

/-- `handleSimulateReply`: reset the matching ticket to `awaiting_review`,
append one inbound thread entry, and clear the selection. -/
def handleSimulateReply (nowMs nowIso ticketId : String) (st : DashState) : DashState :=
  { incomingEmails := st.incomingEmails,
    tickets := st.tickets.map (simReplyTicketUpd nowMs nowIso ticketId),
    selected := none }

/-- The ticket returned by `mkTicketFromEmail` always carries the computed
ingestion key, whether it is the retrieved existing ticket or a fresh one. -/
lemma mkTicket_key (freshId today : String) (ts : List Ticket) (em : MockEmail) :
    (mkTicketFromEmail freshId today ts em).ingestionKey = ingestionKeyOf em := by
  unfold mkTicketFromEmail
  cases hf : ts.find? (fun t => t.ingestionKey == ingestionKeyOf em) with
  | none => rfl
  | some t =>
    have h := List.find?_some hf
    simpa using h

/-- C1: the ingestion key is `messageId + "|" + attachments joined by "|"`;
the synthesized ticket always carries that key; when the collection already
holds a ticket with that key, `mkTicketFromEmail` returns it and
`handleOpenIncoming` leaves the ticket collection unchanged; and
`handleOpenIncoming` preserves the invariant that at most one ticket per
ingestion key — hence at most one per distinct `(messageId, attachment
list)` pair, since each pair determines one key — exists in the
collection. -/
theorem mkTicket_idempotent (freshId today : String) (ts : List Ticket) (em : MockEmail) :
    (ingestionKeyOf em = em.messageId ++ "|" ++ String.intercalate "|" em.attachments) ∧
    ((mkTicketFromEmail freshId today ts em).ingestionKey = ingestionKeyOf em) ∧
    (∀ t, ts.find? (fun x => x.ingestionKey == ingestionKeyOf em) = some t →
        mkTicketFromEmail freshId today ts em = t) ∧
    (∀ st : DashState, ∀ emailId : String,
        st.incomingEmails.find? (fun e => e.id == emailId) = some em →
        (∃ t ∈ st.tickets, t.ingestionKey = ingestionKeyOf em) →
        (handleOpenIncoming freshId today st emailId).tickets = st.tickets) ∧
    (∀ st : DashState, ∀ emailId : String,
        (∀ k, st.tickets.countP (fun t => t.ingestionKey == k) ≤ 1) →
        ∀ k, (handleOpenIncoming freshId today st emailId).tickets.countP
              (fun t => t.ingestionKey == k) ≤ 1) := by
  refine ⟨rfl, mkTicket_key freshId today ts em, ?_, ?_, ?_⟩
  · intro t ht
    unfold mkTicketFromEmail
    rw [ht]
  · rintro st emailId hfind ⟨t, htmem, htkey⟩
    unfold handleOpenIncoming
    rw [hfind]
    have hsome : (st.tickets.find? (fun x =>
        x.ingestionKey == (mkTicketFromEmail freshId today st.tickets em).ingestionKey)).isSome := by
      rw [mkTicket_key, List.find?_isSome]
      exact ⟨t, htmem, by simpa using htkey⟩
    simp only [hsome, if_true]
  · intro st emailId hinv k
    unfold handleOpenIncoming
    cases hfind : st.incomingEmails.find? (fun e => e.id == emailId) with
    | none => exact hinv k
    | some em2 =>
      simp only
      cases hf2 : st.tickets.find? (fun x =>
          x.ingestionKey == (mkTicketFromEmail freshId today st.tickets em2).ingestionKey) with
      | some t2 =>
        simp only [hf2, Option.isSome_some, if_true]
        exact hinv k
      | none =>
        simp only [hf2, Option.isSome_none, Bool.false_eq_true, if_false]
        rw [List.countP_cons]
        by_cases hk : ((mkTicketFromEmail freshId today st.tickets em2).ingestionKey == k) = true
        · have hzero : st.tickets.countP (fun t => t.ingestionKey == k) = 0 := by
            rw [List.countP_eq_zero]
            intro t htmem
            have hnone := List.find?_eq_none.mp hf2 t htmem
            have hkeq : (mkTicketFromEmail freshId today st.tickets em2).ingestionKey = k := by
              simpa using hk
            rw [hkeq] at hnone
            simpa using hnone
          rw [hzero, hk]
          simp
        · simp only [hk, if_false]
          simpa using hinv k

/-- A concrete seed email (first mock email of
`src/frontend/src/pages/Dashboard.jsx`, with stable timestamps and
attachment URLs). -/
def seedEmail : MockEmail :=
  { id := "EML-1001", subject := "Warranty Request: Store #123 (ZX100)",
    «from» := ⟨"Jane Doe", "jane@example.com"⟩,
    body := "Hi team,\n\nAttaching receipt for ZX100.\nStore: BB-0421, Total: $1299.99.\n\nThanks,\nJane",
    attachments := ["https://one.example/receipt1", "https://two.example/receipt2"],
    received_at := "2024-01-01T00:00:00Z", messageId := "msg-1001" }

/-- A ticket previously synthesized from `seedEmail`. -/
def existingTicket : Ticket := mkNewTicket "ABC123" "2024-01-01" seedEmail

/-- Witness for C1: re-synthesizing from `seedEmail` against a collection
already holding its ticket returns that very ticket. -/
theorem mkTicket_idempotent_witness :
    ([existingTicket].find? (fun x => x.ingestionKey == ingestionKeyOf seedEmail)
        = some existingTicket) ∧
    mkTicketFromEmail "DEF456" "2024-02-02" [existingTicket] seedEmail = existingTicket := by
  refine ⟨rfl, ?_⟩
  exact (mkTicket_idempotent "DEF456" "2024-02-02" [existingTicket] seedEmail).2.2.1
    existingTicket rfl

/-- C5: for any ticket collection, ticket id, and draft string (the empty
string included), `handleSend` clears the selected detail view, maps the
matching ticket to status `"sent"` with the draft stored as its
`draft_reply.body`, and leaves every non-matching ticket unchanged; no
non-emptiness condition on the draft is checked and the closing is
unconditional. -/
theorem handleSend_spec (inc : List MockEmail) (ts : List Ticket) (sel : Option Ticket)
    (ticketId draftBody : String) :
    ((handleSend ticketId draftBody ⟨inc, ts, sel⟩).selected = none) ∧
    ((handleSend ticketId draftBody ⟨inc, ts, sel⟩).incomingEmails = inc) ∧
    ((handleSend ticketId draftBody ⟨inc, ts, sel⟩).tickets
        = ts.map (sendTicketUpd ticketId draftBody)) ∧
    (∀ t : Ticket, t.id = ticketId →
      sendTicketUpd ticketId draftBody t
        = { t with status := "sent",
                   draft_reply := { t.draft_reply with body := draftBody } }) ∧
    (∀ t : Ticket, t.id ≠ ticketId → sendTicketUpd ticketId draftBody t = t) := by
  refine ⟨rfl, rfl, rfl, ?_, ?_⟩
  · intro t ht
    simp [sendTicketUpd, ht]
  · intro t ht
    simp [sendTicketUpd, ht]

/-- Witness for C5: sending with an empty draft closes the detail view and
marks the concrete ticket `"sent"` with an empty stored draft body. -/
theorem handleSend_spec_witness :
    existingTicket.id = "TKT-ABC123" ∧
    ((handleSend "TKT-ABC123" "" ⟨[], [existingTicket], some existingTicket⟩).selected
        = none) ∧
    sendTicketUpd "TKT-ABC123" "" existingTicket
      = { existingTicket with
          status := "sent",
          draft_reply := { existingTicket.draft_reply with body := "" } } :=
  ⟨rfl,
   (handleSend_spec [] [existingTicket] (some existingTicket) "TKT-ABC123" "").1,
   (handleSend_spec [] [existingTicket] (some existingTicket) "TKT-ABC123" "").2.2.2.1
     existingTicket rfl⟩

/-- C6: `handleSimulateReply` maps the matching ticket to status
`"awaiting_review"` with its thread extended by exactly one new inbound
entry (`direction = "in"`), the prior entries kept in order; every ticket's
old thread is a prefix of its new one; and neither the Save nor the Send
update ever changes a ticket's thread. -/
theorem handleSimulateReply_spec (nowMs nowIso ticketId : String)
    (inc : List MockEmail) (ts : List Ticket) (sel : Option Ticket) :
    ((handleSimulateReply nowMs nowIso ticketId ⟨inc, ts, sel⟩).tickets
        = ts.map (simReplyTicketUpd nowMs nowIso ticketId)) ∧
    ((handleSimulateReply nowMs nowIso ticketId ⟨inc, ts, sel⟩).selected = none) ∧
    (∀ t : Ticket, t.id = ticketId →
      (simReplyTicketUpd nowMs nowIso ticketId t).status = "awaiting_review" ∧
      (simReplyTicketUpd nowMs nowIso ticketId t).thread
          = t.thread ++ [simReplyEntry nowMs nowIso t] ∧
      (simReplyEntry nowMs nowIso t).direction = "in") ∧
    (∀ t : Ticket, ∃ rest,
      (simReplyTicketUpd nowMs nowIso ticketId t).thread = t.thread ++ rest) ∧
    (∀ d : String, ∀ t : Ticket, (saveTicketUpd ticketId d t).thread = t.thread) ∧
    (∀ d : String, ∀ t : Ticket, (sendTicketUpd ticketId d t).thread = t.thread) := by
  refine ⟨rfl, rfl, ?_, ?_, ?_, ?_⟩
  · intro t ht
    refine ⟨?_, ?_, rfl⟩ <;> simp [simReplyTicketUpd, ht]
  · intro t
    by_cases ht : t.id = ticketId
    · exact ⟨[simReplyEntry nowMs nowIso t], by simp [simReplyTicketUpd, ht]⟩
    · exact ⟨[], by simp [simReplyTicketUpd, ht]⟩
  · intro d t
    by_cases ht : t.id = ticketId <;> simp [saveTicketUpd, ht]
  · intro d t
    by_cases ht : t.id = ticketId <;> simp [sendTicketUpd, ht]

/-- Witness for C6: simulating a reply on the concrete ticket resets its
status and appends exactly one inbound entry after the old thread. -/
theorem handleSimulateReply_spec_witness :
    existingTicket.id = "TKT-ABC123" ∧
    (simReplyTicketUpd "1700000000000" "2024-02-02T00:00:00Z" "TKT-ABC123"
        existingTicket).status = "awaiting_review" ∧
    (simReplyTicketUpd "1700000000000" "2024-02-02T00:00:00Z" "TKT-ABC123"
        existingTicket).thread
      = existingTicket.thread
          ++ [simReplyEntry "1700000000000" "2024-02-02T00:00:00Z" existingTicket] :=
  ⟨rfl,
   ((handleSimulateReply_spec "1700000000000" "2024-02-02T00:00:00Z" "TKT-ABC123"
      [] [existingTicket] none).2.2.1 existingTicket rfl).1,
   ((handleSimulateReply_spec "1700000000000" "2024-02-02T00:00:00Z" "TKT-ABC123"
      [] [existingTicket] none).2.2.1 existingTicket rfl).2.1⟩

/-- A concrete email whose subject and body match none of the extraction
tokens and patterns. -/
def plainEmail : MockEmail :=
  { id := "EML-2001", subject := "Hello", «from» := ⟨"Pat", "pat@example.com"⟩,
    body := "Hi there", attachments := [], received_at := "2024-01-01T00:00:00Z",
    messageId := "msg-2001" }

/-- C9 counterexample: on an email matching no token or pattern, the
`date` field is set to the current date (not `"Unknown"` or `"—"`) and the
`total` field is set to the constant `249.5` — the claim asserts every
unmatched field defaults to `"Unknown"` or the placeholder dash. -/
theorem extracted_default_cex :
    (extractedOfEmail "2024-01-05" plainEmail).date = "2024-01-05" ∧
    (extractedOfEmail "2024-01-05" plainEmail).date ≠ "Unknown" ∧
    (extractedOfEmail "2024-01-05" plainEmail).date ≠ "—" ∧
    (extractedOfEmail "2024-01-05" plainEmail).total = 2495/10 :=
  ⟨rfl, by decide, by decide, rfl⟩

/-- C9 (amended): on an email matching no token or pattern, `merchant`
defaults to `"Unknown"` and `model` and `storeNumber` default to `"—"`, but
`date` defaults to the current date string and `total` defaults to the
constant `249.5`. -/
theorem extracted_default_spec (today : String) (em : MockEmail)
    (hbb : strIncludes "BB" em.body.data = false)
    (htot : strIncludes "$1299.99" em.body.data = false)
    (hmod : findFirstToken ["ZX100", "QX55"] em.subject.data = none)
    (hstore : storeNumberMatch em.body.data = none) :
    extractedOfEmail today em =
      { merchant := "Unknown", date := today, total := 2495/10,
        model := "—", storeNumber := "—" } := by
  simp [extractedOfEmail, hbb, htot, hmod, hstore]

/-- Witness for C9 (amended): the defaults at the concrete non-matching
email. -/
theorem extracted_default_spec_witness :
    strIncludes "BB" plainEmail.body.data = false ∧
    extractedOfEmail "2024-01-05" plainEmail =
      { merchant := "Unknown", date := "2024-01-05", total := 2495/10,
        model := "—", storeNumber := "—" } :=
  ⟨rfl, extracted_default_spec "2024-01-05" plainEmail rfl rfl rfl rfl⟩

/-- The document returned by `fetchEmailDoc` as consumed by
`handleOpenEmail` in `src/unnamed/part_005` (lines 175-197): every field may
be missing. -/
structure DocJson where
  id : Option String
  subject : Option String
  receivedDateTime : Option String
  ticket : Option String
  body : BodyField
  attachments : Option (List BackendAttachment)
  overall_confidence : Option ℚ
  overall_duplication : Option ℚ
  draft_reply : Option DraftReply
deriving DecidableEq

/-- The empty object produced by `.catch(() => ({}))` when the document
fetch rejects. -/
def emptyDoc : DocJson :=
  { id := none, subject := none, receivedDateTime := none, ticket := none,
    body := .missing, attachments := none, overall_confidence := none,
    overall_duplication := none, draft_reply := none }

/-- `doc.body?.content || doc.body || email.body`: the document's body
wrapper chain with the locally-held body as the final fallback. -/
def resolveDocBody (doc : BodyField) (fallback : BodyOut) : BodyOut :=
  match doc with
  | .missing => fallback
  | .strB s => if s = "" then fallback else .strOut s
  | .objB content =>
      match content with
      | some c => if c = "" then .objOut (some "") else .strOut c
      | none => .objOut none

/-- JavaScript `o || d` for an optional number: missing values and `0` are
falsy and fall through to the default. -/
def jsNumOr (o : Option ℚ) (d : ℚ) : ℚ :=
  match o with
  | some q => if q = 0 then d else q
  | none => d

/-- An attachment of the agent-board ticket view. -/
structure AttView where
  sasUrl : String
  blob : String
  name : String
  ocr : Option OcrField
deriving DecidableEq

/-- The attachment mapping of `handleOpenEmail` (`src/unnamed/part_005`
lines 176-181); the name chain `a.name || a.filename || a?.name || ...` is
kept as written. -/
def mkAttView (i : ℕ) (a : BackendAttachment) : AttView :=
  { sasUrl := jsTruthyOr a.blobPath ("mock/blob/" ++ toString i),
    blob := jsTruthyOr a.blobPath ("mock/blob/" ++ toString i),
    name := jsTruthyOr a.name (jsTruthyOr a.filename
      (jsTruthyOr a.name ("attachment_" ++ toString i))),
    ocr := a.ocr }

/-- The all-null `extracted` record of the agent-board ticket view. -/
structure ExtractedDoc where
  merchant : Option String
  date : Option String
  total : Option ℚ
  model : Option String
  store_number : Option String
deriving DecidableEq

/-- The `scores` record of the agent-board ticket view. -/
structure ScoresCD where
  confidence : ℚ
  duplication : ℚ
deriving DecidableEq

/-- A thread entry of the agent-board ticket view (its body is the
transformed email body, which may be an object fall-through). -/
structure AgentThreadEntry where
  id : String
  direction : String
  subject : String
  body : BodyOut
  «at» : String
deriving DecidableEq

/-- The ticket view assembled by `handleOpenEmail` in
`src/unnamed/part_005` lines 183-201. -/
structure TicketView where
  id : String
  email_id : String
  subject : String
  senderName : String
  senderEmail : String
  received_at : String
  status : String
  email_body : BodyOut
  attachments : List AttView
  extracted : ExtractedDoc
  attachmentName : Option String
  scores : ScoresCD
  overall_confidence : ℚ
  overall_duplication : ℚ
  draft_reply : DraftReply
  thread : List AgentThreadEntry
  assigneeId : String
  assigneeName : String
  tags : List String
deriving DecidableEq

/-- The ticket-view construction of `handleOpenEmail`
(`src/unnamed/part_005` lines 176-201), from the clicked local email and the
(possibly empty) fetched document. -/
def buildTicketView (email : AgentEmail) (doc : DocJson) : TicketView :=
  let atts := ((doc.attachments.getD email.attachments).enum.map
    (fun p => mkAttView p.1 p.2))
  { id := jsTruthyOr doc.id email.id,
    email_id := jsTruthyOr doc.id email.id,
    subject := jsTruthyOr doc.subject email.subject,
    senderName := email.fromName,
    senderEmail := email.fromEmail,
    received_at := jsTruthyOr doc.receivedDateTime email.received_at,
    status := jsTruthyOr doc.ticket "awaiting_review",
    email_body := resolveDocBody doc.body email.body,
    attachments := atts,
    extracted := ⟨none, none, none, none, none⟩,
    attachmentName := atts.head?.map (fun a => a.name),
    scores := ⟨0, 0⟩,
    overall_confidence := jsNumOr doc.overall_confidence 0,
    overall_duplication := jsNumOr doc.overall_duplication 0,
    draft_reply := doc.draft_reply.getD ⟨"response", ""⟩,
    thread := [⟨email.messageId, "in", email.subject, email.body, email.received_at⟩],
    assigneeId := email.assigneeId,
    assigneeName := email.assigneeName,
    tags := email.tags }

/-- The mutable state of the agent board (`src/unnamed/part_005`): the email
list and the selected ticket view. -/
structure AgentBoardState where
  emails : List AgentEmail
  selected : Option TicketView
deriving DecidableEq

/-- The backend call `updateEmailTicket(emailId, 'open')` issued by
`handleOpenEmail` without `await` (fire-and-forget): the call is recorded as
pending and resolved separately by `resolveTicketUpdate`. -/
structure PendingTicketUpdate where
  emailId : String
  ticket : String
deriving DecidableEq

/-- `handleOpenEmail` from `src/unnamed/part_005` lines 170-221: find the
clicked email, build the ticket view from the local email and the awaited
document fetch result (`docResult = none` models a rejected fetch, caught as
`{}`), select it, and — only when the email's ticket status is `"new"` —
issue the un-awaited backend status update, returned here as the pending
action. -/
def handleOpenEmail (docResult : Option DocJson) (st : AgentBoardState)
    (emailId : String) : AgentBoardState × Option PendingTicketUpdate :=
  match st.emails.find? (fun e => e.id == emailId) with
  | none => (st, none)
  | some email =>
    let doc := docResult.getD emptyDoc
    ({ emails := st.emails, selected := some (buildTicketView email doc) },
     if email.ticket == "new" then some ⟨emailId, "open"⟩ else none)

/-- Resolution of the pending `updateEmailTicket` call
(`src/unnamed/part_005` lines 207-219): on success (`.then`) the matching
local entry's ticket becomes `"open"`; on rejection (`.catch`) the failure
is only logged — the state, including the selected detail view, is
untouched. -/
def resolveTicketUpdate (p : PendingTicketUpdate) (ok : Bool)
    (st : AgentBoardState) : AgentBoardState :=
  if ok then
    { st with emails := st.emails.map (fun e =>
        if e.id == p.emailId then { e with ticket := "open" } else e) }
  else st

/-- C7: the backend update is issued exactly when the clicked email's ticket
is `"new"` and is not awaited (it is returned as a pending action while the
detail view is already set); a successful resolution sets only the matching
list entry's ticket to `"open"` and leaves the selected view alone; a
rejected resolution leaves the entire state — list entries and open detail
view — unchanged. -/
theorem openEmail_fire_and_forget (docResult : Option DocJson)
    (es : List AgentEmail) (sel : Option TicketView) (emailId : String)
    (email : AgentEmail)
    (hfind : es.find? (fun e => e.id == emailId) = some email) :
    ((handleOpenEmail docResult ⟨es, sel⟩ emailId).2
        = if email.ticket == "new" then some ⟨emailId, "open"⟩ else none) ∧
    ((handleOpenEmail docResult ⟨es, sel⟩ emailId).1.emails = es) ∧
    (∀ p : PendingTicketUpdate, ∀ st : AgentBoardState,
        resolveTicketUpdate p false st = st) ∧
    (∀ p : PendingTicketUpdate, ∀ st : AgentBoardState,
        (resolveTicketUpdate p true st).selected = st.selected) ∧
    (∀ p : PendingTicketUpdate, ∀ st : AgentBoardState, ∀ e ∈ st.emails,
        e.id = p.emailId →
        { e with ticket := "open" } ∈ (resolveTicketUpdate p true st).emails) ∧
    (∀ p : PendingTicketUpdate, ∀ st : AgentBoardState, ∀ e ∈ st.emails,
        e.id ≠ p.emailId → e ∈ (resolveTicketUpdate p true st).emails) := by
  refine ⟨?_, ?_, ?_, ?_, ?_, ?_⟩
  · unfold handleOpenEmail
    rw [hfind]
  · unfold handleOpenEmail
    rw [hfind]
  · intro p st
    rfl
  · intro p st
    rfl
  · intro p st e he hid
    unfold resolveTicketUpdate
    simp only [if_true]
    rw [List.mem_map]
    exact ⟨e, he, by simp [hid]⟩
  · intro p st e he hid
    unfold resolveTicketUpdate
    simp only [if_true]
    rw [List.mem_map]
    exact ⟨e, he, by simp [hid]⟩

/-- A concrete agent-board email whose ticket status is `"new"`. -/
def agentEmailNew : AgentEmail :=
  { id := "E-100", subject := "Subj", fromName := "Nina Davis",
    fromEmail := "nina.davis@example.com", body := .strOut "b", attachments := [],
    received_at := "2024-01-01T00:00:00Z", messageId := "E-100",
    assigneeId := "agent_002", assigneeName := "Alice Thompson", tags := [],
    ticket := "new", labels := none, hasAttachments := false }

/-- Witness for C7: opening the concrete `"new"` email issues the pending
`open` update, and a rejected resolution leaves the concrete state
unchanged. -/
theorem openEmail_fire_and_forget_witness :
    ([agentEmailNew].find? (fun e => e.id == "E-100") = some agentEmailNew) ∧
    ((handleOpenEmail none ⟨[agentEmailNew], none⟩ "E-100").2
        = some ⟨"E-100", "open"⟩) ∧
    (resolveTicketUpdate ⟨"E-100", "open"⟩ false ⟨[agentEmailNew], none⟩
        = ⟨[agentEmailNew], none⟩) := by
  have h := openEmail_fire_and_forget none [agentEmailNew] none "E-100" agentEmailNew rfl
  exact ⟨rfl, h.1.trans rfl, h.2.2.1 ⟨"E-100", "open"⟩ ⟨[agentEmailNew], none⟩⟩

/-- Observable events of one `handleOpenEmail` invocation
(`src/unnamed/part_005` lines 170-221). -/
inductive OpenEmailEvent where
  | fetchDocIssued
  | fetchDocResolved
  | detailShown
  | ticketUpdateIssued
deriving DecidableEq

/-- The event order of `handleOpenEmail` as written in
`src/unnamed/part_005`: line 175 `await`s `fetchEmailDoc` (so the fetch
resolves — or rejects into the `.catch` — before execution continues), the
ticket view is assembled from the result, `setSelected(ticket)` runs at line
202, and the un-awaited `updateEmailTicket` is issued afterwards when the
email was `"new"`.  Note the comment at line 174, "Immediately open the
email detail view (no waiting)", directly contradicts the `await` on the
next line. -/
def handleOpenEmailTrace (isNew : Bool) : List OpenEmailEvent :=
  [.fetchDocIssued, .fetchDocResolved, .detailShown] ++
    (if isNew then [.ticketUpdateIssued] else [])

/-- C8: in the `handleOpenEmail` of `src/unnamed/part_005`, the authoritative
document fetch resolves strictly before the detail view is set — for a
`"new"` email and for any other email alike — so the detail view is not
displayed prior to the fetch's resolution, contrary to the claim (and to the
code's own comment). -/
theorem openEmail_awaits_fetch :
    (handleOpenEmailTrace true).indexOf .fetchDocResolved
      < (handleOpenEmailTrace true).indexOf .detailShown ∧
    ¬ ((handleOpenEmailTrace true).indexOf .detailShown
        < (handleOpenEmailTrace true).indexOf .fetchDocResolved) ∧
    (handleOpenEmailTrace false).indexOf .fetchDocResolved
      < (handleOpenEmailTrace false).indexOf .detailShown := by decide
